import Mathlib

/-!
# Verification of the article-coach issue pipeline

A shallow embedding of the issue detection, prioritization and
fix-validation pipeline of the article_reviewer repository
(`coaching/problem_detector.py`, `coaching/fix_validator.py`,
`coaching/issue_presenter.py`, `optimization/local_analyzer.py`,
`article_coach.py`), together with proofs about its documented
behaviour.

Modelling conventions:
* Python `str` is Lean `String`; the Python string primitives the code
  uses (`split`, `splitlines` on a separator, `strip`, `startswith`,
  `replace(old, new, 1)`, `join`) are defined below by structural
  recursion over the character list so that every definition evaluates
  inside the kernel.
* Python `float` analyzer scores are modelled as `ℚ`: the pipeline only
  ever compares them against literal thresholds and subtracts them, and
  every decision rule is about exact order comparisons.
* The external analyzer capabilities (LanguageTool matches, textstat
  readability scores, spaCy-derived style statistics) are parameters:
  an `Analyzers` record of functions from the text to the exact output
  shapes the repository consumes.  The in-repository logic (match
  classification, thresholds, issue synthesis, prioritization,
  validation) is translated from the source.
-/

set_option maxRecDepth 100000

namespace ArticleCoach

/-! ## Python string primitives -/

/-- Python's whitespace test for `str.split()` / `str.strip()`:
space, tab, newline, carriage return, vertical tab, form feed. -/
def pyIsSpace (c : Char) : Bool :=
  c == ' ' || c == '\t' || c == '\n' || c == '\r' || c == '\x0b' || c == '\x0c'

/-- Python `str.split()` (no separator) over a character list: split on
runs of whitespace, dropping empty pieces. -/
def pyWordsAux : List Char → List Char → List String
  | acc, [] => if acc.isEmpty then [] else [String.mk acc.reverse]
  | acc, c :: cs =>
    if pyIsSpace c then
      if acc.isEmpty then pyWordsAux [] cs
      else String.mk acc.reverse :: pyWordsAux [] cs
    else pyWordsAux (c :: acc) cs

/-- Python `text.split()`: the whitespace-delimited words of a string. -/
def pyWords (s : String) : List String := pyWordsAux [] s.data

/-- `len(s.split())`, the word count the detector uses. -/
def wordCount (s : String) : Nat := (pyWords s).length

/-- Python `text.split('\n\n')` over a character list (leftmost,
non-overlapping occurrences of the two-character separator). -/
def splitParasAux : List Char → List Char → List (List Char)
  | acc, '\n' :: '\n' :: cs => acc.reverse :: splitParasAux [] cs
  | acc, c :: cs => splitParasAux (c :: acc) cs
  | acc, [] => [acc.reverse]

/-- Python `text.split('\n\n')`. -/
def pySplitParas (s : String) : List String :=
  (splitParasAux [] s.data).map String.mk

/-- Python `text.split('\n')` over a character list. -/
def splitLinesAux : List Char → List Char → List (List Char)
  | acc, '\n' :: cs => acc.reverse :: splitLinesAux [] cs
  | acc, c :: cs => splitLinesAux (c :: acc) cs
  | acc, [] => [acc.reverse]

/-- Python `text.split('\n')`. -/
def pySplitLines (s : String) : List String :=
  (splitLinesAux [] s.data).map String.mk

/-- Python `s.strip()`: remove leading and trailing whitespace. -/
def pyStrip (s : String) : String :=
  String.mk (((s.data.dropWhile pyIsSpace).reverse.dropWhile pyIsSpace).reverse)

/-- Python `line.startswith('#')`. -/
def startsWithHash (s : String) : Bool :=
  match s.data with
  | [] => false
  | c :: _ => c == '#'

/-- Python `sep.join(pieces)`. -/
def pyJoin (sep : String) : List String → String
  | [] => ""
  | [s] => s
  | s :: rest => s ++ sep ++ pyJoin sep rest

/-- `', '.join(pieces)`, used when listing replacement suggestions. -/
def joinComma (l : List String) : String := pyJoin ", " l

/-- Python `s.replace(old, new, 1)` over a character list: replace the
first occurrence of `old` (the pipeline only calls this with the
non-empty `issue.context` snippet as `old`). -/
def replaceFirstAux (old new : List Char) : List Char → List Char
  | [] => []
  | c :: cs =>
    if old.isPrefixOf (c :: cs) then new ++ (c :: cs).drop old.length
    else c :: replaceFirstAux old new cs

/-- Python `s.replace(old, new, 1)`. -/
def pyReplaceFirst (s old new : String) : String :=
  String.mk (replaceFirstAux old.data new.data s.data)

/-- Python `'SUB' in rule_id`: substring containment. -/
def pyContains (sub s : String) : Bool := decide (sub.data <:+: s.data)

/-- One-decimal rendering of a rational, as Python's `"%.1f"`-style float
formatting renders the analyzer scores that appear inside user-facing
message strings.  (Python rounds an exact midpoint to even; this renders
midpoints upward — a difference that never affects the decision rules,
which are stated on the raw values, not on their rendering.)  Implemented
over `Int` so that it evaluates in the kernel. -/
def fmtQ1 (q : ℚ) : String :=
  let n10 : Int := Int.fdiv (20 * q.num + (q.den : Int)) (2 * (q.den : Int))
  let sign := if n10 < 0 then "-" else ""
  sign ++ toString (n10.natAbs / 10) ++ "." ++ toString (n10.natAbs % 10)

/-! ## Grammar analyzer (`optimization/local_analyzer.py`, `GrammarAnalyzer`)

`GrammarAnalyzer.analyze` classifies the raw matches returned by the
external LanguageTool engine; the matches themselves are external input,
the classification loop is repository code. -/

/-- One raw LanguageTool match (the fields `analyze` reads). -/
structure LTMatch where
  message : String
  context : String
  offset : Nat
  errorLength : Nat
  replacements : List String
  ruleId : String
deriving DecidableEq

/-- The per-match issue dictionary `analyze` builds (keeps the top 3
replacement suggestions). -/
structure GIssue where
  message : String
  context : String
  offset : Nat
  length : Nat
  replacements : List String
  rule : String
deriving DecidableEq

/-- The dictionary built for each match inside `GrammarAnalyzer.analyze`. -/
def mkGIssue (m : LTMatch) : GIssue :=
  { message := m.message
    context := m.context
    offset := m.offset
    length := m.errorLength
    replacements := m.replacements.take 3
    rule := m.ruleId }

/-- `'SPELL' in rule_id or 'MORFOLOGIK' in rule_id`. -/
def isSpellingRule (r : String) : Bool :=
  pyContains "SPELL" r || pyContains "MORFOLOGIK" r

/-- `'PUNCT' in rule_id or 'COMMA' in rule_id`. -/
def isPunctuationRule (r : String) : Bool :=
  pyContains "PUNCT" r || pyContains "COMMA" r

/-- The result shape of `GrammarAnalyzer.analyze` (the
`issue_breakdown` sub-dictionary is flattened into three fields). -/
structure GrammarAnalysis where
  grammar_issues : List GIssue
  spelling_issues : List GIssue
  punctuation_issues : List GIssue
  total_issues : Nat
  breakdown_grammar : Nat
  breakdown_spelling : Nat
  breakdown_punctuation : Nat
deriving DecidableEq

/-- One iteration of the classification loop of
`GrammarAnalyzer.analyze`: the match is appended to exactly one of the
(grammar, spelling, punctuation) accumulators, testing the spelling
rule-id substrings first, then the punctuation ones. -/
def grammarStep (acc : List GIssue × List GIssue × List GIssue) (m : LTMatch) :
    List GIssue × List GIssue × List GIssue :=
  if isSpellingRule m.ruleId then (acc.1, acc.2.1 ++ [mkGIssue m], acc.2.2)
  else if isPunctuationRule m.ruleId then (acc.1, acc.2.1, acc.2.2 ++ [mkGIssue m])
  else (acc.1 ++ [mkGIssue m], acc.2.1, acc.2.2)

/-- The classification loop of `GrammarAnalyzer.analyze`. -/
def grammarClassify (ms : List LTMatch) :
    List GIssue × List GIssue × List GIssue :=
  ms.foldl grammarStep ([], [], [])

/-- `GrammarAnalyzer.analyze`, as a function of the raw matches the
external engine returned for the text. -/
def grammarAnalyze (ms : List LTMatch) : GrammarAnalysis :=
  let c := grammarClassify ms
  { grammar_issues := c.1
    spelling_issues := c.2.1
    punctuation_issues := c.2.2
    total_issues := ms.length
    breakdown_grammar := c.1.length
    breakdown_spelling := c.2.1.length
    breakdown_punctuation := c.2.2.length }

/-! ## External analyzer output shapes (`ReadabilityAnalyzer`,
`WritingQualityAnalyzer`)

Their numeric content comes from external libraries (textstat, spaCy),
so the analyses are modelled as opaque functions from the text to these
records; only the fields the pipeline consumes are listed. -/

/-- The fields of `ReadabilityAnalyzer.analyze` the pipeline reads. -/
structure ReadabilityAnalysis where
  flesch_reading_ease : ℚ := 0
  avg_sentence_length : ℚ := 0
  difficult_words : Nat := 0
  reading_ease_interpretation : String := ""
deriving DecidableEq

/-- `passive_voice` sub-result of `WritingQualityAnalyzer.analyze`. -/
structure PassiveVoiceStats where
  count : Nat := 0
  percentage : ℚ := 0
  examples : List String := []
  is_excessive : Bool := false
deriving DecidableEq

/-- `adverbs` sub-result. -/
structure AdverbStats where
  count : Nat := 0
  per_100_words : ℚ := 0
  most_common : List (String × Nat) := []
  is_excessive : Bool := false
deriving DecidableEq

/-- `weak_verbs` sub-result. -/
structure WeakVerbStats where
  count : Nat := 0
  percentage : ℚ := 0
  is_excessive : Bool := false
deriving DecidableEq

/-- `repetition` sub-result. -/
structure RepetitionStats where
  repeated_words : List (String × Nat) := []
  total_repetitions : Nat := 0
  is_excessive : Bool := false
deriving DecidableEq

/-- `transitions` sub-result. -/
structure TransitionStats where
  count : Nat := 0
deriving DecidableEq

/-- `paragraph_stats` sub-result. -/
structure ParagraphStats where
  count : Nat := 0
deriving DecidableEq

/-- The result shape of `WritingQualityAnalyzer.analyze`. -/
structure QualityAnalysis where
  passive_voice : PassiveVoiceStats := {}
  adverbs : AdverbStats := {}
  weak_verbs : WeakVerbStats := {}
  repetition : RepetitionStats := {}
  transitions : TransitionStats := {}
  paragraph_stats : ParagraphStats := {}
deriving DecidableEq

/-! ## The Issue data model (`coaching/problem_detector.py`) -/

/-- The type-specific numeric baselines an `Issue` carries for later
re-validation.  Python stores them in a per-type dictionary read back
with `.get(key, 0)`; here every key the code ever writes or reads is a
field whose default is the `.get` default. -/
structure Metrics where
  issue_count : Nat := 0
  flesch_score : ℚ := 0
  difficult_words : Nat := 0
  avg_sentence_length : ℚ := 0
  percentage : ℚ := 0
  count : Nat := 0
  examples : List String := []
  rate : ℚ := 0
  most_common : List (String × Nat) := []
  total_repetitions : Nat := 0
  repeated_words : List (String × Nat) := []
  transition_count : Nat := 0
  paragraph_count : Nat := 0
  long_paragraphs : List (Nat × Nat) := []
  total_paragraphs : Nat := 0
deriving DecidableEq, Inhabited

/-- One detected writing problem (`Issue` dataclass). -/
structure Issue where
  type : String
  severity : Nat
  location : String
  context : String
  description : String
  why : String
  suggested_approach : List String
  metrics : Metrics
deriving DecidableEq, Inhabited

/-- The session's analyzer capabilities: the external engines behind
`GrammarAnalyzer`, `ReadabilityAnalyzer` and `WritingQualityAnalyzer`
(taken to be available, the non-degraded session). -/
structure Analyzers where
  grammarTool : String → List LTMatch
  readability : String → ReadabilityAnalysis
  quality : String → QualityAnalysis

/-! ## Issue prioritizer (`IssuePrioritizer`) -/

/-- `IssuePrioritizer.SEVERITY_SCORES` as the lookup
`SEVERITY_SCORES.get(type, 3)` performs. -/
def severityScores (t : String) : Nat :=
  if t = "spelling" then 10
  else if t = "grammar" then 9
  else if t = "factual_error" then 10
  else if t = "sentence_too_long" then 7
  else if t = "difficult_words" then 6
  else if t = "poor_transitions" then 6
  else if t = "paragraph_too_long" then 6
  else if t = "passive_voice" then 5
  else if t = "weak_verbs" then 4
  else if t = "adverbs" then 3
  else if t = "word_repetition" then 4
  else 3

/-- `IssuePrioritizer.score_issue`. -/
def scoreIssue (i : Issue) : Nat := severityScores i.type

/-- Stable insert for a descending-severity order: the new element goes
after every already-placed element of strictly greater severity and
before the first element of smaller-or-equal severity. -/
def insertDesc (x : Issue) : List Issue → List Issue
  | [] => [x]
  | y :: ys => if x.severity < y.severity then y :: insertDesc x ys else x :: y :: ys

/-- Python's `sorted(issues, key=lambda x: x.severity, reverse=True)`:
the stable descending sort by severity (equal severities keep their
input order).  Embedded as the stable insertion sort, which computes
exactly that list. -/
def stableSortDesc : List Issue → List Issue
  | [] => []
  | x :: xs => insertDesc x (stableSortDesc xs)

/-- `IssuePrioritizer.top_issues`: sort by severity descending (stable),
keep only severity ≥ 5, return the first `limit`. -/
def topIssues (issues : List Issue) (limit : Nat) : List Issue :=
  let sorted_issues := stableSortDesc issues
  let important_issues := sorted_issues.filter (fun i => 5 ≤ i.severity)
  important_issues.take limit

/-! ## Issue synthesis (`ProblemDetector`) -/

/-- The spelling `Issue` built in `_detect_grammar_issues` (`total` is
the length of the full spelling list of this pass). -/
def spellingIssue (total : Nat) (si : GIssue) : Issue :=
  { type := "spelling"
    severity := 10
    location := "Character " ++ toString si.offset
    context := si.context
    description := si.message
    why := "Spelling errors hurt credibility and distract readers"
    suggested_approach :=
      [if si.replacements.isEmpty then "Check spelling"
       else "Replace with: " ++ joinComma (si.replacements.take 3)]
    metrics := { issue_count := total } }

/-- The grammar `Issue` built in `_detect_grammar_issues`. -/
def grammarIssue (total : Nat) (gi : GIssue) : Issue :=
  { type := "grammar"
    severity := 9
    location := "Character " ++ toString gi.offset
    context := gi.context
    description := gi.message
    why := "Grammar errors reduce clarity and professionalism"
    suggested_approach :=
      [if gi.replacements.isEmpty then "Review grammar rule"
       else "Consider: " ++ joinComma (gi.replacements.take 3)]
    metrics := { issue_count := total } }

/-- `ProblemDetector._detect_grammar_issues`: at most 5 issues per
category, each carrying the whole-document category count. -/
def detectGrammarIssues (A : Analyzers) (text : String) : List Issue :=
  let analysis := grammarAnalyze (A.grammarTool text)
  (analysis.spelling_issues.take 5).map (spellingIssue analysis.spelling_issues.length) ++
  (analysis.grammar_issues.take 5).map (grammarIssue analysis.grammar_issues.length)

/-- The `difficult_words` issue of `_detect_readability_issues`. -/
def difficultWordsIssue (analysis : ReadabilityAnalysis) : Issue :=
  { type := "difficult_words"
    severity := 6
    location := "Throughout article"
    context := "Readability score: " ++ fmtQ1 analysis.flesch_reading_ease ++
      " (" ++ analysis.reading_ease_interpretation ++ ")"
    description := "Article is difficult to read"
    why := "Lower readability scores mean fewer people can easily understand your writing"
    suggested_approach :=
      ["Use simpler words where possible",
       "Break long sentences into shorter ones",
       "Target: Flesch Reading Ease above 60 (currently " ++
         fmtQ1 analysis.flesch_reading_ease ++ ")"]
    metrics := { flesch_score := analysis.flesch_reading_ease
                 difficult_words := analysis.difficult_words
                 avg_sentence_length := analysis.avg_sentence_length } }

/-- The `sentence_too_long` issue of `_detect_readability_issues`. -/
def sentenceTooLongIssue (analysis : ReadabilityAnalysis) : Issue :=
  { type := "sentence_too_long"
    severity := 7
    location := "Throughout article"
    context := "Average sentence length: " ++ fmtQ1 analysis.avg_sentence_length ++ " words"
    description := "Sentences are too long on average"
    why := "Long sentences are harder to follow and can lose readers"
    suggested_approach :=
      ["Break long sentences (>25 words) into two shorter ones",
       "Use periods instead of commas to separate ideas",
       "Target: Average sentence length under 20 words (currently " ++
         fmtQ1 analysis.avg_sentence_length ++ ")"]
    metrics := { avg_sentence_length := analysis.avg_sentence_length } }

/-- `ProblemDetector._detect_readability_issues`: the two threshold
checks on the readability scores. -/
def detectReadabilityIssues (A : Analyzers) (text : String) : List Issue :=
  let analysis := A.readability text
  (if analysis.flesch_reading_ease < 50 then [difficultWordsIssue analysis] else []) ++
  (if 20 < analysis.avg_sentence_length then [sentenceTooLongIssue analysis] else [])

/-- The `passive_voice` issue of `_detect_quality_issues`. -/
def passiveVoiceIssue (analysis : QualityAnalysis) : Issue :=
  { type := "passive_voice"
    severity := 5
    location := "Multiple paragraphs"
    context := toString analysis.passive_voice.examples.length ++
      " passive constructions found"
    description := "Excessive passive voice (" ++
      fmtQ1 analysis.passive_voice.percentage ++ "%)"
    why := "Passive voice makes writing less direct and engaging. Active voice is clearer and stronger."
    suggested_approach :=
      ["Identify the actor (who did the action)",
       "Make the actor the subject of the sentence",
       "Use active verbs",
       "Target: <10% passive voice (currently " ++
         fmtQ1 analysis.passive_voice.percentage ++ "%)"]
    metrics := { percentage := analysis.passive_voice.percentage
                 count := analysis.passive_voice.count
                 examples := analysis.passive_voice.examples.take 3 } }

/-- The `adverbs` issue of `_detect_quality_issues`. -/
def adverbsIssue (analysis : QualityAnalysis) : Issue :=
  { type := "adverbs"
    severity := 3
    location := "Throughout article"
    context := toString analysis.adverbs.count ++ " adverbs (" ++
      fmtQ1 analysis.adverbs.per_100_words ++ " per 100 words)"
    description := "Too many adverbs"
    why := "Excessive adverbs weaken writing. Stronger verbs are better than weak verbs + adverbs."
    suggested_approach :=
      ["Replace 'walked slowly' with 'ambled' or 'strolled'",
       "Remove unnecessary intensifiers like 'very', 'really', 'quite'",
       "Target: <3 adverbs per 100 words (currently " ++
         fmtQ1 analysis.adverbs.per_100_words ++ ")"]
    metrics := { count := analysis.adverbs.count
                 rate := analysis.adverbs.per_100_words
                 most_common := analysis.adverbs.most_common.take 5 } }

/-- The `weak_verbs` issue of `_detect_quality_issues`. -/
def weakVerbsIssue (analysis : QualityAnalysis) : Issue :=
  { type := "weak_verbs"
    severity := 4
    location := "Throughout article"
    context := toString analysis.weak_verbs.count ++ " weak verbs (" ++
      fmtQ1 analysis.weak_verbs.percentage ++ "%)"
    description := "Too many weak verbs (be, have, do, get)"
    why := "Weak verbs create passive, lifeless writing. Strong verbs make writing vivid."
    suggested_approach :=
      ["Replace 'is able to' with 'can'",
       "Replace 'has impact on' with 'affects' or 'influences'",
       "Use action verbs instead of 'to be' constructions",
       "Target: <30% weak verbs (currently " ++
         fmtQ1 analysis.weak_verbs.percentage ++ "%)"]
    metrics := { percentage := analysis.weak_verbs.percentage
                 count := analysis.weak_verbs.count } }

/-- The `word_repetition` issue of `_detect_quality_issues`. -/
def wordRepetitionIssue (analysis : QualityAnalysis) : Issue :=
  { type := "word_repetition"
    severity := 4
    location := "Multiple sections"
    context := toString analysis.repetition.total_repetitions ++ " repeated words"
    description := "Excessive word repetition"
    why := "Repeating the same words too often makes writing monotonous. Use synonyms for variety."
    suggested_approach :=
      ["Use synonyms for variety",
       "Rephrase sentences to avoid repetition",
       "Most repeated: " ++ joinComma ((analysis.repetition.repeated_words.take 3).map
         (fun wc => wc.1 ++ " (" ++ toString wc.2 ++ "x)"))]
    metrics := { total_repetitions := analysis.repetition.total_repetitions
                 repeated_words := analysis.repetition.repeated_words.take 10 } }

/-- The `poor_transitions` issue of `_detect_quality_issues`. -/
def poorTransitionsIssue (analysis : QualityAnalysis) : Issue :=
  { type := "poor_transitions"
    severity := 6
    location := "Between paragraphs"
    context := toString analysis.transitions.count ++ " transitions in " ++
      toString analysis.paragraph_stats.count ++ " paragraphs"
    description := "Few transition words between ideas"
    why := "Transition words help readers follow your logic and connect ideas smoothly."
    suggested_approach :=
      ["Add transitions like 'however', 'therefore', 'moreover'",
       "Connect paragraphs with transitional sentences",
       "Show relationships between ideas explicitly"]
    metrics := { transition_count := analysis.transitions.count
                 paragraph_count := analysis.paragraph_stats.count } }

/-- `ProblemDetector._detect_quality_issues`: one issue per excessive
style statistic, plus `poor_transitions` when there are fewer transition
words than paragraphs. -/
def detectQualityIssues (A : Analyzers) (text : String) : List Issue :=
  let analysis := A.quality text
  (if analysis.passive_voice.is_excessive then [passiveVoiceIssue analysis] else []) ++
  (if analysis.adverbs.is_excessive then [adverbsIssue analysis] else []) ++
  (if analysis.weak_verbs.is_excessive then [weakVerbsIssue analysis] else []) ++
  (if analysis.repetition.is_excessive then [wordRepetitionIssue analysis] else []) ++
  (if analysis.transitions.count < analysis.paragraph_stats.count
   then [poorTransitionsIssue analysis] else [])

/-- The paragraphs of `_detect_structure_issues`:
`[p for p in text.split('\n\n') if p.strip()]`. -/
def pyParagraphs (text : String) : List String :=
  (pySplitParas text).filter (fun p => pyStrip p ≠ "")

/-- The `(paragraph number, word count)` pairs of the over-length
paragraphs (1-based, threshold strictly more than 150 words). -/
def longParagraphsOf (paragraphs : List String) : List (Nat × Nat) :=
  paragraphs.enum.filterMap (fun ip =>
    if 150 < wordCount ip.2 then some (ip.1 + 1, wordCount ip.2) else none)

/-- The single aggregated `paragraph_too_long` issue of
`_detect_structure_issues` (Python's `max` of a non-empty list is
written as a `foldl max 0`, which agrees on the `Nat` word counts). -/
def paragraphTooLongIssue (long_paragraphs : List (Nat × Nat)) (total : Nat) : Issue :=
  { type := "paragraph_too_long"
    severity := 6
    location := "Paragraph(s) " ++
      joinComma ((long_paragraphs.take 3).map (fun p => toString p.1))
    context := toString long_paragraphs.length ++ " paragraphs over 150 words"
    description := "Some paragraphs are too long"
    why := "Long paragraphs are intimidating and hard to follow. Readers may skip them."
    suggested_approach :=
      ["Break long paragraphs into smaller chunks",
       "Each paragraph should focus on one main idea",
       "Target: <150 words per paragraph",
       "Longest: " ++ toString ((long_paragraphs.map Prod.snd).foldl max 0) ++ " words"]
    metrics := { long_paragraphs := long_paragraphs
                 total_paragraphs := total } }

/-- `ProblemDetector._detect_structure_issues`. -/
def detectStructureIssues (text : String) : List Issue :=
  let paragraphs := pyParagraphs text
  let long_paragraphs := longParagraphsOf paragraphs
  if long_paragraphs.isEmpty then []
  else [paragraphTooLongIssue long_paragraphs paragraphs.length]

/-- `ProblemDetector.find_all_issues`: run every detector in category
order, then overwrite each issue's severity from the static table
(Python mutates the issues in place; the embedding maps the update over
the list). -/
def findAllIssues (A : Analyzers) (text : String) : List Issue :=
  let issues :=
    detectGrammarIssues A text ++
    detectReadabilityIssues A text ++
    detectQualityIssues A text ++
    detectStructureIssues text
  issues.map (fun i => { i with severity := scoreIssue i })

/-! ## Fix validation (`coaching/fix_validator.py`) -/

/-- `FixValidator._check_improvement`: the per-type improvement decision
on the freshly re-analyzed edited snippet.  The analyzers are always
available in the modelled session, so the Python `if self.detector.<x>:`
guards are taken; `original` is unused by the source body as well. -/
def checkImprovement (A : Analyzers) (original edited : String) (issue : Issue)
    (new_issues : List Issue) : Bool × String × List (String × ℚ) :=
  if issue.type = "spelling" ∨ issue.type = "grammar" then
    let new_count := (new_issues.filter (fun i => i.type == issue.type)).length
    let old_count := issue.metrics.issue_count
    if new_count < old_count then
      (true, "✅ Fixed! Reduced " ++ issue.type ++ " issues from " ++
        toString old_count ++ " to " ++ toString new_count,
        [("before", (old_count : ℚ)), ("after", (new_count : ℚ))])
    else if new_count = 0 then
      (true, "✅ Perfect! No " ++ issue.type ++ " issues remaining",
        [("before", (old_count : ℚ)), ("after", 0)])
    else
      (false, "⚠️  Still " ++ toString new_count ++ " " ++ issue.type ++
        " issue(s) remaining",
        [("before", (old_count : ℚ)), ("after", (new_count : ℚ))])
  else if issue.type = "passive_voice" then
    let new_pct := (A.quality edited).passive_voice.percentage
    let old_pct := issue.metrics.percentage
    let improvement := old_pct - new_pct
    if new_pct < 10 then
      (true, "✅ Excellent! Passive voice reduced to " ++ fmtQ1 new_pct ++
        "% (target met)", [("before", old_pct), ("after", new_pct)])
    else if 3 < improvement then
      (true, "✅ Good improvement! Passive voice: " ++ fmtQ1 old_pct ++ "% → " ++
        fmtQ1 new_pct ++ "%", [("before", old_pct), ("after", new_pct)])
    else if 0 < improvement then
      (true, "✓ Small improvement. Passive voice: " ++ fmtQ1 old_pct ++ "% → " ++
        fmtQ1 new_pct ++ "%", [("before", old_pct), ("after", new_pct)])
    else
      (false, "⚠️  No improvement. Passive voice still at " ++ fmtQ1 new_pct ++ "%",
        [("before", old_pct), ("after", new_pct)])
  else if issue.type = "adverbs" then
    let new_rate := (A.quality edited).adverbs.per_100_words
    let old_rate := issue.metrics.rate
    let improvement := old_rate - new_rate
    if new_rate < 3 then
      (true, "✅ Excellent! Adverb rate reduced to " ++ fmtQ1 new_rate ++
        " per 100 words", [("before", old_rate), ("after", new_rate)])
    else if 1/2 < improvement then
      (true, "✅ Good! Adverbs: " ++ fmtQ1 old_rate ++ " → " ++ fmtQ1 new_rate ++
        " per 100 words", [("before", old_rate), ("after", new_rate)])
    else
      (false, "⚠️  Still " ++ fmtQ1 new_rate ++ " adverbs per 100 words (target: <3)",
        [("before", old_rate), ("after", new_rate)])
  else if issue.type = "weak_verbs" then
    let new_pct := (A.quality edited).weak_verbs.percentage
    let old_pct := issue.metrics.percentage
    let improvement := old_pct - new_pct
    if new_pct < 30 then
      (true, "✅ Great! Weak verbs reduced to " ++ fmtQ1 new_pct ++ "%",
        [("before", old_pct), ("after", new_pct)])
    else if 3 < improvement then
      (true, "✅ Improved! Weak verbs: " ++ fmtQ1 old_pct ++ "% → " ++ fmtQ1 new_pct ++ "%",
        [("before", old_pct), ("after", new_pct)])
    else
      (false, "⚠️  Still " ++ fmtQ1 new_pct ++ "% weak verbs (target: <30%)",
        [("before", old_pct), ("after", new_pct)])
  else if issue.type = "difficult_words" then
    let new_score := (A.readability edited).flesch_reading_ease
    let old_score := issue.metrics.flesch_score
    let improvement := new_score - old_score
    if 60 ≤ new_score then
      (true, "✅ Excellent! Readability improved to " ++ fmtQ1 new_score,
        [("before", old_score), ("after", new_score)])
    else if 5 < improvement then
      (true, "✅ Better! Readability: " ++ fmtQ1 old_score ++ " → " ++ fmtQ1 new_score,
        [("before", old_score), ("after", new_score)])
    else if 0 < improvement then
      (true, "✓ Slight improvement: " ++ fmtQ1 old_score ++ " → " ++ fmtQ1 new_score,
        [("before", old_score), ("after", new_score)])
    else
      (false, "⚠️  Readability unchanged at " ++ fmtQ1 new_score,
        [("before", old_score), ("after", new_score)])
  else if issue.type = "sentence_too_long" then
    let new_avg := (A.readability edited).avg_sentence_length
    let old_avg := issue.metrics.avg_sentence_length
    let improvement := old_avg - new_avg
    if new_avg < 20 then
      (true, "✅ Perfect! Average sentence length: " ++ fmtQ1 new_avg ++ " words",
        [("before", old_avg), ("after", new_avg)])
    else if 2 < improvement then
      (true, "✅ Better! Sentence length: " ++ fmtQ1 old_avg ++ " → " ++
        fmtQ1 new_avg ++ " words", [("before", old_avg), ("after", new_avg)])
    else
      (false, "⚠️  Still averaging " ++ fmtQ1 new_avg ++ " words per sentence",
        [("before", old_avg), ("after", new_avg)])
  else if issue.type = "paragraph_too_long" then
    let paragraphs := pyParagraphs edited
    let long_paras := (paragraphs.map wordCount).filter (fun wc => 150 < wc)
    let old_count := issue.metrics.long_paragraphs.length
    if long_paras.length = 0 then
      (true, "✅ Excellent! All paragraphs are now <150 words",
        [("before", (old_count : ℚ)), ("after", 0)])
    else if long_paras.length < old_count then
      (true, "✅ Improved! Long paragraphs: " ++ toString old_count ++ " → " ++
        toString long_paras.length,
        [("before", (old_count : ℚ)), ("after", (long_paras.length : ℚ))])
    else
      (false, "⚠️  Still " ++ toString long_paras.length ++ " paragraph(s) over 150 words",
        [("before", (old_count : ℚ)), ("after", (long_paras.length : ℚ))])
  else if issue.type = "word_repetition" then
    let new_count := (A.quality edited).repetition.total_repetitions
    let old_count := issue.metrics.total_repetitions
    if new_count < old_count then
      (true, "✅ Better! Repetitions reduced from " ++ toString old_count ++
        " to " ++ toString new_count,
        [("before", (old_count : ℚ)), ("after", (new_count : ℚ))])
    else
      (false, "⚠️  Still " ++ toString new_count ++ " repeated words",
        [("before", (old_count : ℚ)), ("after", (new_count : ℚ))])
  else if issue.type = "poor_transitions" then
    let new_count := (A.quality edited).transitions.count
    let old_count := issue.metrics.transition_count
    let para_count := (pyParagraphs edited).length
    if para_count ≤ new_count then
      (true, "✅ Great! Added transition words (" ++ toString new_count ++ " transitions)",
        [("before", (old_count : ℚ)), ("after", (new_count : ℚ))])
    else if old_count < new_count then
      (true, "✅ Improved! Transitions: " ++ toString old_count ++ " → " ++
        toString new_count,
        [("before", (old_count : ℚ)), ("after", (new_count : ℚ))])
    else
      (false, "⚠️  Still only " ++ toString new_count ++ " transitions for " ++
        toString para_count ++ " paragraphs",
        [("before", (old_count : ℚ)), ("after", (new_count : ℚ))])
  else
    (true, "✓ Text edited", [])

/-- `FixValidator.validate_fix`: re-analyze the edited snippet and apply
the per-type improvement rule. -/
def validateFix (A : Analyzers) (original_text edited_text : String) (issue : Issue) :
    Bool × String × List (String × ℚ) :=
  let new_issues := findAllIssues A edited_text
  checkImprovement A original_text edited_text issue new_issues

/-! ## The Resolution Loop's edit_inline branch
(`article_coach.py`, `ArticleCoach._present_issues`) -/

/-- The loop state the edit_inline branch can touch. -/
structure CoachState where
  coached_text : String
  fixed_count : Nat := 0
  skipped_count : Nat := 0
deriving DecidableEq

/-- One `edit_inline` action of `_present_issues`: `edited` is what
`edit_text_inline` returned (`none` when the user aborted).  When the
edit is non-empty and differs from `issue.context`, the first occurrence
of the context is replaced in the working text, the validator runs, and
the fixed counter is incremented exactly when the verdict is improved;
otherwise nothing happens.  The returned `Option` records the verdict of
the validator call, `none` when the validator was not invoked. -/
def editInlineStep
    (validate : String → String → Issue → Bool × String × List (String × ℚ))
    (st : CoachState) (issue : Issue) (edited : Option String) :
    CoachState × Option (Bool × String × List (String × ℚ)) :=
  match edited with
  | none => (st, none)
  | some e =>
    if e ≠ "" ∧ e ≠ issue.context then
      let coached := pyReplaceFirst st.coached_text issue.context e
      let verdict := validate issue.context e issue
      ({ st with
          coached_text := coached
          fixed_count := if verdict.1 then st.fixed_count + 1 else st.fixed_count },
       some verdict)
    else (st, none)

/-! ## Inline editing (`coaching/issue_presenter.py`, `edit_text_inline`) -/

/-- The pure post-processing tail of `edit_text_inline`, applied to the
content the user saved from the editor: drop every line that starts with
`'#'` (the instruction comments — and any content line that happens to
start with `'#'`), re-join, strip surrounding whitespace, and return
`none` (an aborted edit) when nothing is left.  The tempfile/subprocess
plumbing around it is I/O and is not modelled. -/
def editTextInlinePost (edited : String) : Option String :=
  let lines := pySplitLines edited
  let kept := lines.filter (fun l => !(startsWithHash l))
  let out := pyStrip (pyJoin "\n" kept)
  if out = "" then none else some out

/-- The severity table exactly as the specification states it: the ten
listed issue types with their values, and 3 for any unlisted type.
(Stated from the spec's words, to be compared with `severityScores`,
which is translated from the source table; the source table also holds a
`factual_error` entry, a type `find_all_issues` never produces.) -/
def specSeverityOfType (t : String) : Nat :=
  if t = "spelling" then 10
  else if t = "grammar" then 9
  else if t = "sentence_too_long" then 7
  else if t = "difficult_words" then 6
  else if t = "poor_transitions" then 6
  else if t = "paragraph_too_long" then 6
  else if t = "passive_voice" then 5
  else if t = "weak_verbs" then 4
  else if t = "word_repetition" then 4
  else if t = "adverbs" then 3
  else 3

/-! ## Concrete sessions used by witnesses and counterexamples -/

/-- A session whose external engines report a clean text: no
LanguageTool matches, easy readability, no excessive style statistic. -/
def cleanAnalyzers : Analyzers :=
  { grammarTool := fun _ => []
    readability := fun _ =>
      { flesch_reading_ease := 100
        avg_sentence_length := 5
        difficult_words := 0
        reading_ease_interpretation := "Very Easy" }
    quality := fun _ => {} }

/-- A concrete already-prioritized issue (severity 7). -/
def prioritizedIssue : Issue :=
  { type := "sentence_too_long"
    severity := 7
    location := "Throughout article"
    context := "Average sentence length: 24.0 words"
    description := "Sentences are too long on average"
    why := "Long sentences are harder to follow and can lose readers"
    suggested_approach := []
    metrics := { avg_sentence_length := 24 } }

/-- A 151-one-letter-word paragraph: the smallest kind of text for which
`find_all_issues` emits a `paragraph_too_long` issue. -/
def smallLongText : String := pyJoin " " (List.replicate 151 "A")

/-- The spec's literal test input `"A"*200 + "\n\n" + "B"*10`: one
200-character word, a blank line, one 10-character word. -/
def c7CharText : String :=
  String.mk (List.replicate 200 'A') ++ "\n\n" ++ String.mk (List.replicate 10 'B')

/-- The word-level variant of the spec's test input: 200
whitespace-separated words, a blank line, 10 whitespace-separated
words. -/
def c7WordText : String :=
  pyJoin " " (List.replicate 200 "A") ++ "\n\n" ++ pyJoin " " (List.replicate 10 "B")

/-- A spelling issue from an earlier pass whose whole-document baseline
count was 1. -/
def staleSpellingIssue : Issue :=
  { type := "spelling"
    severity := 10
    location := "Character 0"
    context := "teh"
    description := "Possible spelling mistake found."
    why := "Spelling errors hurt credibility and distract readers"
    suggested_approach := ["Replace with: the"]
    metrics := { issue_count := 1 } }

/-- A session whose style engine reports 11% passive voice for any
snippet. -/
def passiveQualityAnalyzers : Analyzers :=
  { cleanAnalyzers with quality := fun _ => { passive_voice := { percentage := 11 } } }

/-- A passive-voice issue whose baseline percentage was 15%. -/
def stalePassiveIssue : Issue :=
  { type := "passive_voice"
    severity := 5
    location := "Multiple paragraphs"
    context := "2 passive constructions found"
    description := "Excessive passive voice (15.0%)"
    why := "Passive voice makes writing less direct and engaging. Active voice is clearer and stronger."
    suggested_approach := []
    metrics := { percentage := 15, count := 2 } }

/-- A session whose style engine reports exactly one transition word for
any snippet. -/
def transitionAnalyzers : Analyzers :=
  { cleanAnalyzers with quality := fun _ => { transitions := { count := 1 } } }

/-- A poor-transitions issue whose baseline was 2 transitions across a
4-paragraph document. -/
def staleTransitionsIssue : Issue :=
  { type := "poor_transitions"
    severity := 6
    location := "Between paragraphs"
    context := "A"
    description := "Few transition words between ideas"
    why := "Transition words help readers follow your logic and connect ideas smoothly."
    suggested_approach := []
    metrics := { transition_count := 2, paragraph_count := 4 } }

/-- A concrete Resolution Loop state mid-session. -/
def sampleCoachState : CoachState :=
  { coached_text := "Some working text.", fixed_count := 1, skipped_count := 2 }

/-! ## Lemmas: the grammar-match classification loop -/

/-- The matches routed to the grammar list: neither a spelling nor a
punctuation rule id. -/
def isGrammarResidue (m : LTMatch) : Bool :=
  !isSpellingRule m.ruleId && !isPunctuationRule m.ruleId

/-- The matches routed to the punctuation list: not a spelling rule id,
but a punctuation one. -/
def isPunctuationResidue (m : LTMatch) : Bool :=
  !isSpellingRule m.ruleId && isPunctuationRule m.ruleId

lemma grammarClassify_go (ms : List LTMatch) (g s p : List GIssue) :
    ms.foldl grammarStep (g, s, p) =
      (g ++ (ms.filter isGrammarResidue).map mkGIssue,
       s ++ (ms.filter (fun m => isSpellingRule m.ruleId)).map mkGIssue,
       p ++ (ms.filter isPunctuationResidue).map mkGIssue) := by
  induction ms generalizing g s p with
  | nil => simp
  | cons m ms ih =>
    by_cases h1 : isSpellingRule m.ruleId
    · simp [grammarStep, h1, ih, List.filter_cons, isGrammarResidue, isPunctuationResidue]
    · by_cases h2 : isPunctuationRule m.ruleId <;>
        simp [grammarStep, h1, h2, ih, List.filter_cons, isGrammarResidue,
          isPunctuationResidue]

lemma grammarClassify_eq (ms : List LTMatch) :
    grammarClassify ms =
      ((ms.filter isGrammarResidue).map mkGIssue,
       (ms.filter (fun m => isSpellingRule m.ruleId)).map mkGIssue,
       (ms.filter isPunctuationResidue).map mkGIssue) := by
  simpa [grammarClassify] using grammarClassify_go ms [] [] []

lemma three_filters_length (ms : List LTMatch) :
    (ms.filter isGrammarResidue).length +
      (ms.filter (fun m => isSpellingRule m.ruleId)).length +
      (ms.filter isPunctuationResidue).length = ms.length := by
  induction ms with
  | nil => simp
  | cons m ms ih =>
    by_cases h1 : isSpellingRule m.ruleId
    · simp [List.filter_cons, isGrammarResidue, isPunctuationResidue, h1]
      omega
    · by_cases h2 : isPunctuationRule m.ruleId <;>
        · simp [List.filter_cons, isGrammarResidue, isPunctuationResidue, h1, h2]
          omega

/-- C9: `GrammarAnalyzer.analyze` partitions the raw matches: the
spelling list holds exactly the matches whose rule id contains `SPELL`
or `MORFOLOGIK`; the punctuation list exactly the remaining matches
whose rule id contains `PUNCT` or `COMMA`; the grammar list exactly the
rest — so the three list lengths sum to `total_issues`, and the
`issue_breakdown` counts equal the three list lengths. -/
theorem c9_grammar_match_partition (ms : List LTMatch) :
    (grammarAnalyze ms).spelling_issues =
      (ms.filter (fun m => isSpellingRule m.ruleId)).map mkGIssue ∧
    (grammarAnalyze ms).punctuation_issues =
      (ms.filter isPunctuationResidue).map mkGIssue ∧
    (grammarAnalyze ms).grammar_issues =
      (ms.filter isGrammarResidue).map mkGIssue ∧
    (grammarAnalyze ms).grammar_issues.length +
      (grammarAnalyze ms).spelling_issues.length +
      (grammarAnalyze ms).punctuation_issues.length =
      (grammarAnalyze ms).total_issues ∧
    (grammarAnalyze ms).breakdown_grammar = (grammarAnalyze ms).grammar_issues.length ∧
    (grammarAnalyze ms).breakdown_spelling = (grammarAnalyze ms).spelling_issues.length ∧
    (grammarAnalyze ms).breakdown_punctuation =
      (grammarAnalyze ms).punctuation_issues.length := by
  have h := grammarClassify_eq ms
  refine ⟨?_, ?_, ?_, ?_, rfl, rfl, rfl⟩ <;>
    simp [grammarAnalyze, h, three_filters_length ms]

/-! ## Lemmas: the stable descending sort of the prioritizer -/

lemma mem_insertDesc {a x : Issue} {l : List Issue} :
    a ∈ insertDesc x l ↔ a = x ∨ a ∈ l := by
  induction l with
  | nil => simp [insertDesc]
  | cons y ys ih =>
    by_cases h : x.severity < y.severity <;> simp [insertDesc, h, ih] <;> tauto

lemma pairwise_insertDesc {x : Issue} {l : List Issue}
    (hl : l.Pairwise (fun a b => b.severity ≤ a.severity)) :
    (insertDesc x l).Pairwise (fun a b => b.severity ≤ a.severity) := by
  induction l with
  | nil => simp [insertDesc]
  | cons y ys ih =>
    rcases List.pairwise_cons.mp hl with ⟨hy, hys⟩
    by_cases h : x.severity < y.severity
    · rw [insertDesc, if_pos h]
      refine List.pairwise_cons.mpr ⟨?_, ih hys⟩
      intro b hb
      rcases mem_insertDesc.mp hb with rfl | hb
      · exact le_of_lt h
      · exact hy b hb
    · rw [insertDesc, if_neg h]
      refine List.pairwise_cons.mpr ⟨?_, hl⟩
      intro b hb
      rcases List.mem_cons.mp hb with rfl | hb
      · omega
      · have := hy b hb; omega

lemma pairwise_stableSortDesc (l : List Issue) :
    (stableSortDesc l).Pairwise (fun a b => b.severity ≤ a.severity) := by
  induction l with
  | nil => simp [stableSortDesc]
  | cons x xs ih => exact pairwise_insertDesc ih

lemma filter_sev_insertDesc (x : Issue) (l : List Issue) (s : Nat) :
    (insertDesc x l).filter (fun i => i.severity == s) =
      (x :: l).filter (fun i => i.severity == s) := by
  induction l with
  | nil => simp [insertDesc]
  | cons y ys ih =>
    by_cases h : x.severity < y.severity
    · rw [insertDesc, if_pos h]
      by_cases hy : y.severity = s
      · have hx : ¬ x.severity = s := by omega
        simp [List.filter_cons, hy, hx, ih]
      · by_cases hx : x.severity = s <;> simp [List.filter_cons, hy, hx, ih]
    · rw [insertDesc, if_neg h]

lemma filter_sev_stableSortDesc (l : List Issue) (s : Nat) :
    (stableSortDesc l).filter (fun i => i.severity == s) =
      l.filter (fun i => i.severity == s) := by
  induction l with
  | nil => rfl
  | cons x xs ih =>
    rw [stableSortDesc, filter_sev_insertDesc, List.filter_cons, List.filter_cons, ih]

/-- C2: `top_issues` returns no issue of severity below 5, at most
`limit` issues, sorted descending by severity; and the order is stable:
for every severity value, the returned issues of that severity form a
prefix of the input issues of that severity, in input order. -/
theorem c2_top_issues_contract (issues : List Issue) (limit : Nat) :
    (∀ i ∈ topIssues issues limit, 5 ≤ i.severity) ∧
    (topIssues issues limit).length ≤ limit ∧
    (topIssues issues limit).Pairwise (fun a b => b.severity ≤ a.severity) ∧
    (∀ s : Nat, (topIssues issues limit).filter (fun i => i.severity == s) <+:
      issues.filter (fun i => i.severity == s)) := by
  refine ⟨?_, ?_, ?_, ?_⟩
  · intro i hi
    have h1 := List.mem_of_mem_take hi
    have h2 := (List.mem_filter.mp h1).2
    simpa using h2
  · exact List.length_take_le _ _
  · have hs : List.Sublist (topIssues issues limit) (stableSortDesc issues) :=
      ((List.take_sublist _ _).trans (List.filter_sublist _))
    exact (pairwise_stableSortDesc issues).sublist hs
  · intro s
    by_cases h5 : 5 ≤ s
    · have h1 : topIssues issues limit <+:
          (stableSortDesc issues).filter (fun i => 5 ≤ i.severity) :=
        List.take_prefix _ _
      have h2 := h1.filter (fun i => i.severity == s)
      have h3 : (((stableSortDesc issues).filter (fun i => 5 ≤ i.severity)).filter
            (fun i => i.severity == s)) =
          (stableSortDesc issues).filter (fun i => i.severity == s) := by
        rw [List.filter_filter]
        apply List.filter_congr
        intro i _
        by_cases hi : i.severity = s
        · simp [hi, h5]
        · simp [hi]
      rw [h3, filter_sev_stableSortDesc] at h2
      exact h2
    · have hempty : (topIssues issues limit).filter (fun i => i.severity == s) = [] := by
        apply List.filter_eq_nil_iff.mpr
        intro i hi
        have h2 := (List.mem_filter.mp (List.mem_of_mem_take hi)).2
        simp only [decide_eq_true_eq] at h2
        simp only [beq_iff_eq]
        omega
      rw [hempty]
      exact List.nil_prefix

/-- Witness for C2: applied to the one-element list holding
`prioritizedIssue` with limit 3, whose single returned issue indeed has
severity at least 5. -/
theorem c2_top_issues_contract_witness : 5 ≤ prioritizedIssue.severity :=
  (c2_top_issues_contract [prioritizedIssue] 3).1 prioritizedIssue (by decide)

/-! ## Lemmas: which issue types each detector can produce -/

lemma type_detectGrammarIssues {A : Analyzers} {text : String} {i : Issue}
    (h : i ∈ detectGrammarIssues A text) :
    i.type = "spelling" ∨ i.type = "grammar" := by
  simp only [detectGrammarIssues, List.mem_append, List.mem_map] at h
  rcases h with ⟨j, _, rfl⟩ | ⟨j, _, rfl⟩
  · exact Or.inl rfl
  · exact Or.inr rfl

lemma mem_detectReadabilityIssues {A : Analyzers} {text : String} {i : Issue} :
    i ∈ detectReadabilityIssues A text ↔
      ((A.readability text).flesch_reading_ease < 50 ∧
        i = difficultWordsIssue (A.readability text)) ∨
      (20 < (A.readability text).avg_sentence_length ∧
        i = sentenceTooLongIssue (A.readability text)) := by
  by_cases hf : (A.readability text).flesch_reading_ease < 50 <;>
    by_cases ha : 20 < (A.readability text).avg_sentence_length <;>
      simp [detectReadabilityIssues, hf, ha]

lemma type_detectReadabilityIssues {A : Analyzers} {text : String} {i : Issue}
    (h : i ∈ detectReadabilityIssues A text) :
    i.type = "difficult_words" ∨ i.type = "sentence_too_long" := by
  rcases mem_detectReadabilityIssues.mp h with ⟨_, rfl⟩ | ⟨_, rfl⟩
  · exact Or.inl rfl
  · exact Or.inr rfl

lemma type_detectQualityIssues {A : Analyzers} {text : String} {i : Issue}
    (h : i ∈ detectQualityIssues A text) :
    i.type = "passive_voice" ∨ i.type = "adverbs" ∨ i.type = "weak_verbs" ∨
      i.type = "word_repetition" ∨ i.type = "poor_transitions" := by
  simp only [detectQualityIssues, List.mem_append] at h
  rcases h with ((((h | h) | h) | h) | h) <;>
    (split at h <;>
      simp_all [passiveVoiceIssue, adverbsIssue, weakVerbsIssue,
        wordRepetitionIssue, poorTransitionsIssue])

lemma type_detectStructureIssues {text : String} {i : Issue}
    (h : i ∈ detectStructureIssues text) :
    i.type = "paragraph_too_long" := by
  simp only [detectStructureIssues] at h
  split at h
  · cases h
  · simp only [List.mem_singleton] at h
    subst h
    rfl

lemma findAllIssues_types_and_severity {A : Analyzers} {text : String} {i : Issue}
    (h : i ∈ findAllIssues A text) :
    i.severity = severityScores i.type ∧
      i.type ∈ (["spelling", "grammar", "difficult_words", "sentence_too_long",
        "passive_voice", "adverbs", "weak_verbs", "word_repetition",
        "poor_transitions", "paragraph_too_long"] : List String) := by
  simp only [findAllIssues, List.mem_map, List.mem_append] at h
  obtain ⟨j, hj, rfl⟩ := h
  refine ⟨rfl, ?_⟩
  show j.type ∈ _
  rcases hj with ((hj | hj) | hj) | hj
  · rcases type_detectGrammarIssues hj with h | h <;> simp [h]
  · rcases type_detectReadabilityIssues hj with h | h <;> simp [h]
  · rcases type_detectQualityIssues hj with h | h | h | h | h <;> simp [h]
  · simp [type_detectStructureIssues hj]

/-- C3: every issue returned by `find_all_issues` carries the severity
given by the fixed per-type table of the specification (spelling 10,
grammar 9, sentence_too_long 7, difficult_words / poor_transitions /
paragraph_too_long 6, passive_voice 5, weak_verbs / word_repetition 4,
adverbs 3, 3 for anything unlisted), regardless of the severity the
issue carried at construction. -/
theorem c3_severity_is_type_table (A : Analyzers) (text : String) :
    ∀ i ∈ findAllIssues A text, i.severity = specSeverityOfType i.type := by
  intro i hi
  obtain ⟨hsev, hty⟩ := findAllIssues_types_and_severity hi
  rw [hsev]
  simp only [List.mem_cons, List.not_mem_nil, or_false] at hty
  rcases hty with h | h | h | h | h | h | h | h | h | h <;> rw [h] <;> decide

/-- Witness for C3: in the clean session analyzing a single 151-word
paragraph, the one returned issue (the `paragraph_too_long` one) has the
table severity of its type. -/
theorem c3_severity_is_type_table_witness :
    (findAllIssues cleanAnalyzers smallLongText).headI.severity =
      specSeverityOfType (findAllIssues cleanAnalyzers smallLongText).headI.type :=
  c3_severity_is_type_table cleanAnalyzers smallLongText _ (by decide)

/-- C1: `find_all_issues` emits a `difficult_words` issue exactly when
the readability analyzer's Flesch Reading Ease for the text is strictly
below 50, and a `sentence_too_long` issue exactly when its average
sentence length is strictly above 20 — so the boundary values 50 and 20
themselves do not trigger. -/
theorem c1_readability_issue_thresholds (A : Analyzers) (text : String) :
    ((∃ i ∈ findAllIssues A text, i.type = "difficult_words") ↔
      (A.readability text).flesch_reading_ease < 50) ∧
    ((∃ i ∈ findAllIssues A text, i.type = "sentence_too_long") ↔
      20 < (A.readability text).avg_sentence_length) := by
  constructor
  · constructor
    · rintro ⟨i, hi, hty⟩
      simp only [findAllIssues, List.mem_map, List.mem_append] at hi
      obtain ⟨j, hj, rfl⟩ := hi
      replace hty : j.type = "difficult_words" := hty
      rcases hj with ((hj | hj) | hj) | hj
      · rcases type_detectGrammarIssues hj with h | h <;> rw [h] at hty <;>
          exact absurd hty (by decide)
      · rcases mem_detectReadabilityIssues.mp hj with ⟨hc, rfl⟩ | ⟨hc, rfl⟩
        · exact hc
        · exact absurd (show ("sentence_too_long" : String) = "difficult_words" from hty)
            (by decide)
      · rcases type_detectQualityIssues hj with h | h | h | h | h <;>
          rw [h] at hty <;> exact absurd hty (by decide)
      · rw [type_detectStructureIssues hj] at hty
        exact absurd hty (by decide)
    · intro hf
      refine ⟨{ difficultWordsIssue (A.readability text) with
          severity := scoreIssue (difficultWordsIssue (A.readability text)) }, ?_, rfl⟩
      simp only [findAllIssues, List.mem_map]
      exact ⟨difficultWordsIssue (A.readability text), by
        simp [List.mem_append, mem_detectReadabilityIssues, hf], rfl⟩
  · constructor
    · rintro ⟨i, hi, hty⟩
      simp only [findAllIssues, List.mem_map, List.mem_append] at hi
      obtain ⟨j, hj, rfl⟩ := hi
      replace hty : j.type = "sentence_too_long" := hty
      rcases hj with ((hj | hj) | hj) | hj
      · rcases type_detectGrammarIssues hj with h | h <;> rw [h] at hty <;>
          exact absurd hty (by decide)
      · rcases mem_detectReadabilityIssues.mp hj with ⟨hc, rfl⟩ | ⟨hc, rfl⟩
        · exact absurd (show ("difficult_words" : String) = "sentence_too_long" from hty)
            (by decide)
        · exact hc
      · rcases type_detectQualityIssues hj with h | h | h | h | h <;>
          rw [h] at hty <;> exact absurd hty (by decide)
      · rw [type_detectStructureIssues hj] at hty
        exact absurd hty (by decide)
    · intro ha
      refine ⟨{ sentenceTooLongIssue (A.readability text) with
          severity := scoreIssue (sentenceTooLongIssue (A.readability text)) }, ?_, rfl⟩
      simp only [findAllIssues, List.mem_map]
      exact ⟨sentenceTooLongIssue (A.readability text), by
        simp [List.mem_append, mem_detectReadabilityIssues, ha], rfl⟩

/-! ## Lemmas: the paragraph_too_long issues of a pass come from the
structure detector alone -/

lemma filter_ptl_findAllIssues (A : Analyzers) (text : String) :
    (findAllIssues A text).filter (fun i => i.type == "paragraph_too_long") =
      (detectStructureIssues text).map (fun i => { i with severity := scoreIssue i }) := by
  simp only [findAllIssues]
  rw [List.filter_map]
  have hpf : ((fun i : Issue => i.type == "paragraph_too_long") ∘
      (fun i : Issue => { i with severity := scoreIssue i })) =
      (fun i : Issue => i.type == "paragraph_too_long") := rfl
  rw [hpf]
  rw [List.filter_append, List.filter_append, List.filter_append]
  have h1 : (detectGrammarIssues A text).filter
      (fun i => i.type == "paragraph_too_long") = [] := by
    apply List.filter_eq_nil_iff.mpr
    intro i hi
    rcases type_detectGrammarIssues hi with h | h <;> simp [h]
  have h2 : (detectReadabilityIssues A text).filter
      (fun i => i.type == "paragraph_too_long") = [] := by
    apply List.filter_eq_nil_iff.mpr
    intro i hi
    rcases type_detectReadabilityIssues hi with h | h <;> simp [h]
  have h3 : (detectQualityIssues A text).filter
      (fun i => i.type == "paragraph_too_long") = [] := by
    apply List.filter_eq_nil_iff.mpr
    intro i hi
    rcases type_detectQualityIssues hi with h | h | h | h | h <;> simp [h]
  have h4 : (detectStructureIssues text).filter
      (fun i => i.type == "paragraph_too_long") = detectStructureIssues text := by
    apply List.filter_eq_self.mpr
    intro i hi
    simp [type_detectStructureIssues hi]
  rw [h1, h2, h3, h4]
  simp

/-- Counterexample to C7 as stated: Python's `"A"*200` is a single
200-character word, not 200 words, so on the spec's literal input every
paragraph is far below the 150-word threshold and `find_all_issues`
emits no `paragraph_too_long` issue at all (clean session shown). -/
theorem c7_char_paragraph_counterexample :
    (findAllIssues cleanAnalyzers c7CharText).filter
      (fun i => i.type == "paragraph_too_long") = [] := by decide

/-- C7 (amended): for the two-paragraph input whose first paragraph is
200 whitespace-separated words and whose second is 10, `find_all_issues`
emits (in any session) exactly one `paragraph_too_long` issue, and its
`metrics.long_paragraphs` is `[(1, 200)]`. -/
theorem c7_long_paragraph_detection (A : Analyzers) :
    ((findAllIssues A c7WordText).filter
        (fun i => i.type == "paragraph_too_long")).map
      (fun i => i.metrics.long_paragraphs) = [[(1, 200)]] := by
  rw [filter_ptl_findAllIssues]
  decide

/-! ## The spelling/grammar validation rule (C4) -/

/-- Counterexample to C4 as stated: the code tests `new < old` before
`new == 0`, so an edit that brings the spelling count from 1 down to 0
gets the "reduced" tier message, not the "perfect, 0 remaining" one —
the "perfect" tier does not fire exactly when the new count reaches 0. -/
theorem c4_perfect_tier_counterexample :
    ((findAllIssues cleanAnalyzers "Word").filter
      (fun i => i.type == "spelling")).length = 0 ∧
    (validateFix cleanAnalyzers "teh" "Word" staleSpellingIssue).1 = true ∧
    (validateFix cleanAnalyzers "teh" "Word" staleSpellingIssue).2.1 =
      "✅ Fixed! Reduced spelling issues from 1 to 0" ∧
    (validateFix cleanAnalyzers "teh" "Word" staleSpellingIssue).2.1 ≠
      "✅ Perfect! No spelling issues remaining" := by decide

/-- C4 (amended): for spelling/grammar issues, the fresh value is the
count of same-type issues in a full re-analysis of the edited snippet,
`improved` holds iff `new < old` or `new == 0`, the message is the
"reduced" tier whenever `new < old` (also when the count drops to 0),
the "perfect, 0 remaining" tier exactly when `new == 0` without
`new < old` (i.e. the baseline was already 0), and the not-improved
"still remaining" tier otherwise. -/
theorem c4_spelling_grammar_validation (A : Analyzers) (issue : Issue)
    (original edited : String)
    (h : issue.type = "spelling" ∨ issue.type = "grammar") :
    ((validateFix A original edited issue).1 = true ↔
      (((findAllIssues A edited).filter (fun i => i.type == issue.type)).length <
          issue.metrics.issue_count ∨
        ((findAllIssues A edited).filter (fun i => i.type == issue.type)).length = 0)) ∧
    (((findAllIssues A edited).filter (fun i => i.type == issue.type)).length <
        issue.metrics.issue_count →
      (validateFix A original edited issue).2.1 =
        "✅ Fixed! Reduced " ++ issue.type ++ " issues from " ++
          toString issue.metrics.issue_count ++ " to " ++
          toString ((findAllIssues A edited).filter
            (fun i => i.type == issue.type)).length) ∧
    (¬ ((findAllIssues A edited).filter (fun i => i.type == issue.type)).length <
        issue.metrics.issue_count →
      ((findAllIssues A edited).filter (fun i => i.type == issue.type)).length = 0 →
      (validateFix A original edited issue).2.1 =
        "✅ Perfect! No " ++ issue.type ++ " issues remaining") ∧
    (¬ ((findAllIssues A edited).filter (fun i => i.type == issue.type)).length <
        issue.metrics.issue_count →
      ((findAllIssues A edited).filter (fun i => i.type == issue.type)).length ≠ 0 →
      (validateFix A original edited issue).1 = false ∧
      (validateFix A original edited issue).2.1 =
        "⚠️  Still " ++ toString ((findAllIssues A edited).filter
            (fun i => i.type == issue.type)).length ++ " " ++ issue.type ++
          " issue(s) remaining") := by
  by_cases h1 : ((findAllIssues A edited).filter
      (fun i => i.type == issue.type)).length < issue.metrics.issue_count
  · simp [validateFix, checkImprovement, if_pos h, h1]
  · by_cases h2 : ((findAllIssues A edited).filter
        (fun i => i.type == issue.type)).length = 0
    · have h3 : issue.metrics.issue_count = 0 := by omega
      simp [validateFix, checkImprovement, if_pos h, h1, h2, h3]
    · simp [validateFix, checkImprovement, if_pos h, h1, h2]

/-- Witness for C4 (amended): in the clean session, validating the
spelling issue with baseline 1 over a clean edited snippet (fresh count
0) is judged improved. -/
theorem c4_spelling_grammar_validation_witness :
    (validateFix cleanAnalyzers "teh" "Word" staleSpellingIssue).1 = true :=
  (c4_spelling_grammar_validation cleanAnalyzers staleSpellingIssue "teh" "Word"
    (Or.inl rfl)).1.mpr (by decide)

/-! ## The passive-voice validation rule (C5) -/

/-- C5: for a `passive_voice` issue with baseline `old` and fresh
snippet percentage `new`, `validate_fix` is improved iff `new < 10` or
`old − new > 3` or `old − new > 0`, with the message tier decided in
that order (excellent / good improvement / small improvement), and not
improved otherwise. -/
theorem c5_passive_voice_validation (A : Analyzers) (issue : Issue)
    (original edited : String) (h : issue.type = "passive_voice") :
    ((validateFix A original edited issue).1 = true ↔
      ((A.quality edited).passive_voice.percentage < 10 ∨
       3 < issue.metrics.percentage - (A.quality edited).passive_voice.percentage ∨
       0 < issue.metrics.percentage - (A.quality edited).passive_voice.percentage)) ∧
    ((A.quality edited).passive_voice.percentage < 10 →
      (validateFix A original edited issue).2.1 =
        "✅ Excellent! Passive voice reduced to " ++
          fmtQ1 (A.quality edited).passive_voice.percentage ++ "% (target met)") ∧
    (¬ (A.quality edited).passive_voice.percentage < 10 →
      3 < issue.metrics.percentage - (A.quality edited).passive_voice.percentage →
      (validateFix A original edited issue).2.1 =
        "✅ Good improvement! Passive voice: " ++ fmtQ1 issue.metrics.percentage ++
          "% → " ++ fmtQ1 (A.quality edited).passive_voice.percentage ++ "%") ∧
    (¬ (A.quality edited).passive_voice.percentage < 10 →
      ¬ 3 < issue.metrics.percentage - (A.quality edited).passive_voice.percentage →
      0 < issue.metrics.percentage - (A.quality edited).passive_voice.percentage →
      (validateFix A original edited issue).2.1 =
        "✓ Small improvement. Passive voice: " ++ fmtQ1 issue.metrics.percentage ++
          "% → " ++ fmtQ1 (A.quality edited).passive_voice.percentage ++ "%") ∧
    (¬ (A.quality edited).passive_voice.percentage < 10 →
      ¬ 3 < issue.metrics.percentage - (A.quality edited).passive_voice.percentage →
      ¬ 0 < issue.metrics.percentage - (A.quality edited).passive_voice.percentage →
      (validateFix A original edited issue).1 = false) := by
  by_cases h1 : (A.quality edited).passive_voice.percentage < 10 <;>
    by_cases h2 : 3 < issue.metrics.percentage -
      (A.quality edited).passive_voice.percentage <;>
    by_cases h3 : 0 < issue.metrics.percentage -
      (A.quality edited).passive_voice.percentage <;>
    simp [validateFix, checkImprovement, h, h1, h2, h3]

/-- Witness for C5, the spec's worked example: baseline 15.0%, fresh
11.0% — improvement 4.0 > 3, so improved with the "good improvement"
tier. -/
theorem c5_passive_voice_validation_witness :
    (validateFix passiveQualityAnalyzers "o" "e" stalePassiveIssue).1 = true ∧
    (validateFix passiveQualityAnalyzers "o" "e" stalePassiveIssue).2.1 =
      "✅ Good improvement! Passive voice: 15.0% → 11.0%" := by
  have h := c5_passive_voice_validation passiveQualityAnalyzers stalePassiveIssue
    "o" "e" rfl
  have ha : ¬ (passiveQualityAnalyzers.quality "e").passive_voice.percentage < 10 := by
    norm_num [passiveQualityAnalyzers, cleanAnalyzers]
  have hb : 3 < stalePassiveIssue.metrics.percentage -
      (passiveQualityAnalyzers.quality "e").passive_voice.percentage := by
    norm_num [passiveQualityAnalyzers, cleanAnalyzers, stalePassiveIssue]
  refine ⟨h.1.mpr (Or.inr (Or.inl hb)), ?_⟩
  rw [h.2.2.1 ha hb]
  decide

/-! ## The poor-transitions validation rule (C6) -/

/-- Counterexample to C6 as stated: `validate_fix` compares the fresh
transition count against the paragraph count of the edited *snippet*,
not of the edited working document.  Editing snippet "A" of the
4-paragraph document "A\n\nB\n\nC\n\nD" to the 1-paragraph snippet "X",
with 1 fresh transition and baseline 2: the code reports improved
(1 ≥ 1), yet the claim's condition fails (1 < 4 and 1 ≤ 2). -/
theorem c6_document_paragraphs_counterexample :
    pyReplaceFirst "A\n\nB\n\nC\n\nD" "A" "X" = "X\n\nB\n\nC\n\nD" ∧
    (pyParagraphs "X\n\nB\n\nC\n\nD").length = 4 ∧
    (transitionAnalyzers.quality "X").transitions.count = 1 ∧
    staleTransitionsIssue.metrics.transition_count = 2 ∧
    (validateFix transitionAnalyzers "A" "X" staleTransitionsIssue).1 = true ∧
    ¬ ((pyParagraphs "X\n\nB\n\nC\n\nD").length ≤
        (transitionAnalyzers.quality "X").transitions.count ∨
      staleTransitionsIssue.metrics.transition_count <
        (transitionAnalyzers.quality "X").transitions.count) := by decide

/-- C6 (amended): for a `poor_transitions` issue, `validate_fix` is
improved iff the fresh transition count of the edited snippet is at
least the blank-line paragraph count of the edited *snippet* (not of the
edited document), or strictly exceeds the baseline transition count. -/
theorem c6_poor_transitions_validation (A : Analyzers) (issue : Issue)
    (original edited : String) (h : issue.type = "poor_transitions") :
    ((validateFix A original edited issue).1 = true ↔
      ((pyParagraphs edited).length ≤ (A.quality edited).transitions.count ∨
        issue.metrics.transition_count < (A.quality edited).transitions.count)) ∧
    ((pyParagraphs edited).length ≤ (A.quality edited).transitions.count →
      (validateFix A original edited issue).2.1 =
        "✅ Great! Added transition words (" ++
          toString (A.quality edited).transitions.count ++ " transitions)") ∧
    (¬ (pyParagraphs edited).length ≤ (A.quality edited).transitions.count →
      issue.metrics.transition_count < (A.quality edited).transitions.count →
      (validateFix A original edited issue).2.1 =
        "✅ Improved! Transitions: " ++ toString issue.metrics.transition_count ++
          " → " ++ toString (A.quality edited).transitions.count) ∧
    (¬ (pyParagraphs edited).length ≤ (A.quality edited).transitions.count →
      ¬ issue.metrics.transition_count < (A.quality edited).transitions.count →
      (validateFix A original edited issue).1 = false) := by
  by_cases h1 : (pyParagraphs edited).length ≤ (A.quality edited).transitions.count <;>
    by_cases h2 : issue.metrics.transition_count <
      (A.quality edited).transitions.count <;>
    simp [validateFix, checkImprovement, h, h1, h2]

/-- Witness for C6 (amended): one fresh transition covers the single
paragraph of the edited snippet "X", so the verdict is improved. -/
theorem c6_poor_transitions_validation_witness :
    (validateFix transitionAnalyzers "A" "X" staleTransitionsIssue).1 = true :=
  (c6_poor_transitions_validation transitionAnalyzers staleTransitionsIssue
    "A" "X" rfl).1.mpr (Or.inl (by decide))

/-! ## The no-op inline edit is a frame action (C8) -/

/-- C8: in the edit_inline branch, when the editor returned nothing
(aborted edit) or returned exactly `issue.context`, the loop state —
working text, fixed counter, skipped counter — is unchanged and the
validator is never invoked (no verdict is produced), whatever validator
the loop carries. -/
theorem c8_noop_edit_is_frame
    (validate : String → String → Issue → Bool × String × List (String × ℚ))
    (st : CoachState) (issue : Issue) (edited : Option String)
    (h : edited = none ∨ edited = some issue.context) :
    editInlineStep validate st issue edited = (st, none) := by
  rcases h with rfl | rfl
  · rfl
  · simp [editInlineStep]

/-- Witness for C8: a concrete state and issue with the edit equal to
the issue's context. -/
theorem c8_noop_edit_is_frame_witness :
    editInlineStep (fun _ _ _ => (true, "✓ Text edited", [])) sampleCoachState
      prioritizedIssue (some prioritizedIssue.context) = (sampleCoachState, none) :=
  c8_noop_edit_is_frame (fun _ _ _ => (true, "✓ Text edited", []))
    sampleCoachState prioritizedIssue (some prioritizedIssue.context) (Or.inr rfl)

/-! ## The inline editor drops '#' lines (C10) -/

lemma pyStrip_eq_empty_of_all_space {s : String}
    (h : ∀ c ∈ s.data, pyIsSpace c) : pyStrip s = "" := by
  have h1 : s.data.dropWhile pyIsSpace = [] := List.dropWhile_eq_nil_iff.mpr h
  simp [pyStrip, h1]

lemma all_space_of_pyStrip_eq_empty {s : String}
    (h : pyStrip s = "") : ∀ c ∈ s.data, pyIsSpace c := by
  intro c hc
  have h1 : ((s.data.dropWhile pyIsSpace).reverse.dropWhile pyIsSpace).reverse = [] := by
    have h2 := congrArg String.data h
    simpa [pyStrip] using h2
  rw [List.reverse_eq_nil_iff] at h1
  have h2 : ∀ x ∈ (s.data.dropWhile pyIsSpace).reverse, pyIsSpace x :=
    List.dropWhile_eq_nil_iff.mp h1
  have h3 : ∀ x ∈ s.data.dropWhile pyIsSpace, pyIsSpace x := by
    intro x hx
    exact h2 x (List.mem_reverse.mpr hx)
  rw [← List.takeWhile_append_dropWhile pyIsSpace s.data] at hc
  rcases List.mem_append.mp hc with hc | hc
  · exact List.mem_takeWhile_imp hc
  · exact h3 c hc

lemma join_lines_all_space {ls : List String}
    (h : ∀ l ∈ ls, ∀ c ∈ l.data, pyIsSpace c) :
    ∀ c ∈ (pyJoin "\n" ls).data, pyIsSpace c := by
  induction ls with
  | nil => intro c hc; cases hc
  | cons x xs ih =>
    cases xs with
    | nil =>
      intro c hc
      exact h x (by simp) c hc
    | cons y ys =>
      intro c hc
      have hd : pyJoin "\n" (x :: y :: ys) = x ++ "\n" ++ pyJoin "\n" (y :: ys) := rfl
      rw [hd] at hc
      simp only [String.data_append, List.mem_append] at hc
      rcases hc with (hc | hc) | hc
      · exact h x (by simp) c hc
      · simp only [List.mem_singleton] at hc
        subst hc
        decide
      · exact ih (fun l hl => h l (List.mem_cons_of_mem x hl)) c hc

lemma editTextInlinePost_none {edited : String}
    (h : ∀ l ∈ pySplitLines edited, startsWithHash l = true ∨ pyStrip l = "") :
    editTextInlinePost edited = none := by
  have hall : ∀ l ∈ (pySplitLines edited).filter (fun l => !(startsWithHash l)),
      ∀ c ∈ l.data, pyIsSpace c := by
    intro l hl
    obtain ⟨hmem, hpred⟩ := List.mem_filter.mp hl
    rcases h l hmem with hh | hh
    · rw [hh] at hpred
      cases hpred
    · exact all_space_of_pyStrip_eq_empty hh
  have hout := pyStrip_eq_empty_of_all_space (join_lines_all_space hall)
  simp [editTextInlinePost, hout]

/-- C10: `edit_text_inline` drops from the user's saved text every line
that begins with `'#'` and strips surrounding whitespace; a saved text
consisting only of `'#'`-prefixed lines and whitespace therefore comes
back as `none` (treated upstream as an aborted edit), and a legitimate
content line starting with `'#'` — such as a Markdown heading — is
silently dropped from the applied edit. -/
theorem c10_hash_lines_dropped :
    (∀ edited : String,
      (∀ l ∈ pySplitLines edited, startsWithHash l = true ∨ pyStrip l = "") →
      editTextInlinePost edited = none) ∧
    editTextInlinePost "# Fix: improve\nThe text body." = some "The text body." ∧
    editTextInlinePost "# A Markdown heading\n\nBody paragraph." =
      some "Body paragraph." :=
  ⟨fun _ h => editTextInlinePost_none h, by decide, by decide⟩

/-- Witness for C10: a saved text of two '#' instruction lines and a
whitespace line post-processes to `none`. -/
theorem c10_hash_lines_dropped_witness :
    (∀ l ∈ pySplitLines "# Fix: x\n   \n# done",
      startsWithHash l = true ∨ pyStrip l = "") ∧
    editTextInlinePost "# Fix: x\n   \n# done" = none :=
  ⟨by decide, c10_hash_lines_dropped.1 "# Fix: x\n   \n# done" (by decide)⟩

end ArticleCoach
